import Mathlib

/-!
Verification of the lihil_mcp adapter: a shallow embedding of
`lihil_mcp/server.py` (registry builder, schema inferer, dispatcher) and
`lihil_mcp/transport.py` (request classification), with theorems settling
the specification claims about them.
-/

/-! ## Python value model

Python runtime values as they matter to the dispatcher's result coercion
(`server.py` lines 218-222 and 244-248).  Floats are opaque atoms carrying
their literal form; only identity matters to this code.  `obj` stands for
any value outside the JSON-compatible shapes, carrying the text `str()`
would produce for it.  Dictionary keys are strings, as in the annotated
types of the source. -/

inductive PyVal where
| none : PyVal
| bool (b : Bool) : PyVal
| int (n : Int) : PyVal
| float (lit : String) : PyVal
| str (s : String) : PyVal
| list (xs : List PyVal) : PyVal
| dict (kvs : List (String × PyVal)) : PyVal
| tuple (xs : List PyVal) : PyVal
| obj (text : String) : PyVal

/-- The check `isinstance(result, (dict, list, str, int, float, bool, type(None)))`:
the check guarding the early return in `_call_endpoint` /
`_call_endpoint_as_resource`. -/
def isJsonPrimitive : PyVal → Bool
| .none => true
| .bool _ => true
| .int _ => true
| .float _ => true
| .str _ => true
| .list _ => true
| .dict _ => true
| .tuple _ => false
| .obj _ => false

mutual

/-- Python `json.loads(json.dumps(result, default=str))`: a JSON encode/decode
round trip in which any value the encoder cannot serialize is replaced by
its `str()` text.  Tuples are encoded as JSON arrays and decoded as lists;
non-serializable leaves come back as strings. -/
def jsonCoerce : PyVal → PyVal
| .none => .none
| .bool b => .bool b
| .int n => .int n
| .float lit => .float lit
| .str s => .str s
| .list xs => .list (jsonCoerceList xs)
| .tuple xs => .list (jsonCoerceList xs)
| .dict kvs => .dict (jsonCoerceDict kvs)
| .obj text => .str text

def jsonCoerceList : List PyVal → List PyVal
| [] => []
| x :: xs => jsonCoerce x :: jsonCoerceList xs

def jsonCoerceDict : List (String × PyVal) → List (String × PyVal)
| [] => []
| (k, v) :: kvs => (k, jsonCoerce v) :: jsonCoerceDict kvs

end

/-- Result coercion shared by both dispatcher entry points
(`server.py` lines 218-222 and 244-248). -/
def coerceResult (r : PyVal) : PyVal :=
  if isJsonPrimitive r then r else jsonCoerce r

/-! ## Python dict and string helpers -/

/-- Python dict item assignment `d[k] = v` on an association list with
unique keys: replace in place if the key is present, else append. -/
def dictInsert {α : Type} : List (String × α) → String → α → List (String × α)
| [], k, v => [(k, v)]
| kv :: rest, k, v =>
  if kv.1 == k then (k, v) :: rest else kv :: dictInsert rest k v

/-- Python dict lookup `d.get(k)`. -/
def dictGet {α : Type} (d : List (String × α)) (k : String) : Option α :=
  match d.find? (fun kv => kv.1 == k) with
  | some kv => some kv.2
  | Option.none => Option.none

/-- Python `dict(pairs)`: later values win, first-insertion order kept. -/
def pyDict (l : List (String × String)) : List (String × String) :=
  List.foldl (fun d kv => dictInsert d kv.1 kv.2) [] l

/-- Python `needle in hay` on lists (contiguous-infix test). -/
def pyInChars (needle : List Char) : List Char → Bool
| [] => needle.isEmpty
| c :: rest => needle.isPrefixOf (c :: rest) || pyInChars needle rest

/-- Python substring test `needle in hay` on strings. -/
def pyIn (needle hay : String) : Bool :=
  pyInChars needle.toList hay.toList

/-- Python `s.startswith(p)`. -/
def pyStartsWith (s p : String) : Bool :=
  p.toList.isPrefixOf s.toList

/-- Python `s.replace(old, new)` for one-character patterns. -/
def pyReplace (s : String) (old new : Char) : String :=
  String.mk (s.toList.map (fun ch => if ch == old then new else ch))

/-- Python `s.strip(c)`: drop leading and trailing occurrences of `c`. -/
def pyStrip (s : String) (c : Char) : String :=
  String.mk ((((s.toList.dropWhile (fun ch => ch == c)).reverse).dropWhile
    (fun ch => ch == c)).reverse)

/-- Python `s.upper()` for ASCII method names. -/
def pyUpper (s : String) : String :=
  String.mk (s.toList.map Char.toUpper)

/-- Python `a or b` on an optional string, where both `None` and the
empty string are falsy (the `description or doc or fallback` chains in
`server.py`). -/
def pyOr (a : Option String) (b : String) : String :=
  match a with
  | Option.none => b
  | some s => if s = "" then b else s

/-- A single-quote character, for rendering Python `repr` output. -/
def sqChar : String := String.singleton (Char.ofNat 39)

/-- Python `repr` of a simple ASCII bytes value, `b` followed by the
quoted text (no escaping is modelled; header values here are plain). -/
def bytesRepr (s : String) : String := "b" ++ sqChar ++ s ++ sqChar

/-- Python `str(headers)` for the header dict built in
`_is_mcp_request`: the repr of a dict of bytes keys and values. -/
def headersStr (d : List (String × String)) : String :=
  "\x7b" ++
    String.intercalate ", "
      (d.map (fun kv => bytesRepr kv.1 ++ ": " ++ bytesRepr kv.2)) ++
  "\x7d"

/-! ## Transport shim (`transport.py`, `LihilMCPTransport._is_mcp_request`) -/

/-- An ASGI scope as read by `_is_mcp_request`: its `type`, `path`, and
raw header pairs (bytes decoded as latin-1 text). -/
structure Scope where
  type : String
  path : String
  headers : List (String × String)

/-- The `content-type` value `_is_mcp_request` reads:
`dict(scope["headers"]).get(b"content-type", b"")`. -/
def contentTypeOf (scope : Scope) : String :=
  (dictGet (pyDict scope.headers) "content-type").getD ""

/-- The classifier `LihilMCPTransport._is_mcp_request` (`transport.py` lines 38-54):
non-HTTP scopes are rejected; a path starting with the configured MCP
path px is accepted; otherwise accept when the content-type contains
`application/json` and `str(headers)` contains `jsonrpc`. -/
def isMcpRequest (pfx : String) (scope : Scope) : Bool :=
  if scope.type != "http" then false
  else if pyStartsWith scope.path pfx then true
  else
    pyIn "application/json" (contentTypeOf scope) &&
      pyIn "jsonrpc" (headersStr (pyDict scope.headers))

/-! ## Schema inferer (`server.py`, `LihilMCP._generate_input_schema`) -/

/-- A parameter's type annotation as seen by `inspect.signature`:
one of the types in the fixed `type_map`, absent (`Parameter.empty`),
or anything else. -/
inductive PyAnnot where
| str : PyAnnot
| int : PyAnnot
| float : PyAnnot
| bool : PyAnnot
| list : PyAnnot
| dict : PyAnnot
| empty : PyAnnot
| other (name : String) : PyAnnot

/-- One entry of `inspect.signature(func).parameters`: its name, its
annotation, and its default value (`Option.none` = `Parameter.empty`). -/
structure Param where
  name : String
  annot : PyAnnot
  default : Option PyVal

/-- The `type_map` lookup (`server.py` lines 164-178): an absent
annotation is first replaced by `str`, and annotations outside the table
fall back to the `string` tag. -/
def typeTag : PyAnnot → String
| .str => "string"
| .int => "integer"
| .float => "number"
| .bool => "boolean"
| .list => "array"
| .dict => "object"
| .empty => "string"
| .other _ => "string"

/-- The parameter loop of `_generate_input_schema` (`server.py` lines
160-181): skip `self`/`cls`, record a property tag per parameter, and
record the parameter as required exactly when it has no default. -/
def schemaLoop : List Param → List (String × String) × List String
| [] => ([], [])
| p :: ps =>
  if p.name = "self" ∨ p.name = "cls" then schemaLoop ps
  else
    let rest := schemaLoop ps
    ((p.name, typeTag p.annot) :: rest.1,
      if p.default.isNone then p.name :: rest.2 else rest.2)

/-- The inferred schema: `{"type": "object", "properties": ...,
"required": ...}`, with property values abbreviated to their
`"type"` tag. -/
structure Schema where
  properties : List (String × String)
  required : List String

/-! ## Callables, endpoints, routes -/

/-- MCP metadata kind (`Literal["tool", "resource"]` in `types.py`). -/
inductive MCPKind where
| tool : MCPKind
| resource : MCPKind
deriving DecidableEq

/-- Structure `MCPMetadata` from `types.py`, as attached by the decorators. -/
structure MCPMetadata where
  type : MCPKind
  title : Option String
  description : Option String
  uriTemplate : Option String
  extra : List (String × String)

/-- A Python callable as the adapter sees it: its `__name__`, its
`__doc__`, the outcome of `inspect.signature` (`Except.error` models the
call raising), its execution on bound arguments (`Except.error` models
the body raising, carrying the exception text), and the decorator
metadata `_mcp_meta` if any. -/
structure PyFunc where
  name : String
  doc : Option String
  sig : Except String (List Param)
  run : List (String × PyVal) → Except String PyVal
  mcpMeta : Option MCPMetadata

/-- A lihil endpoint: its unwrapped callable and HTTP method.
`fastmcpRaises` models the outcome of the external FastMCP
registration call (`@self.mcp_server.tool(...)` / `.resource(...)`)
performed for this endpoint: `some e` means that call raises `e`. -/
structure Endpoint where
  func : PyFunc
  method : String
  fastmcpRaises : Option String

/-- A lihil route: its path and its endpoints (the values of the
method-to-endpoint mapping, in iteration order). -/
structure Route where
  path : String
  endpoints : List Endpoint

/-- Function `_generate_input_schema` (`server.py` lines 151-192): `None` when
introspection raises (the surrounding `try`/`except`) or when no
non-`self`/`cls` parameters are found; otherwise the object schema. -/
def generateInputSchema (f : PyFunc) : Option Schema :=
  match f.sig with
  | Except.error _ => Option.none
  | Except.ok params =>
    let pr := schemaLoop params
    if pr.1.isEmpty then Option.none
    else some (Schema.mk pr.1 pr.2)

/-! ## Dispatcher (`server.py`, `_call_endpoint` and
`_call_endpoint_as_resource`) -/

/-- Errors raised by this layer (`types.py`): the uniform dispatch
error and the fatal registration error. -/
inductive MCPErr where
| mcpError (msg : String) : MCPErr
| registrationError (msg : String) : MCPErr

/-- Python `sig.bind(**kwargs)` followed by `apply_defaults()`: report a
missing required argument first (as `Signature.bind` does), then an
unexpected keyword; otherwise produce the arguments in parameter order
with defaults filled in. -/
def bindArgs (params : List Param) (kwargs : List (String × PyVal)) :
    Except String (List (String × PyVal)) :=
  match params.find? (fun p =>
      p.default.isNone && !(kwargs.any (fun kv => kv.1 == p.name))) with
  | some p =>
    Except.error ("missing a required argument: " ++ sqChar ++ p.name ++ sqChar)
  | Option.none =>
    match kwargs.find? (fun kv => !(params.any (fun p => p.name == kv.1))) with
    | some kv =>
      Except.error ("got an unexpected keyword argument " ++
        sqChar ++ kv.1 ++ sqChar)
    | Option.none =>
      Except.ok (params.map (fun p =>
        (p.name, match dictGet kwargs p.name with
          | some v => v
          | Option.none => p.default.getD PyVal.none)))

/-- The body of the `try` block in `_call_endpoint` (lines 206-216):
introspect the signature, bind the arguments, then call the function
(awaited or not — both are a plain call here) on the bound arguments. -/
def bindAndCall (f : PyFunc) (kwargs : List (String × PyVal)) :
    Except String PyVal :=
  match f.sig with
  | Except.error e => Except.error e
  | Except.ok params =>
    match bindArgs params kwargs with
    | Except.error e => Except.error e
    | Except.ok bound => f.run bound

/-- Function `LihilMCP._call_endpoint` (`server.py` lines 194-225): unknown tool
names fail unwrapped; any exception from binding or execution is
re-raised as `MCPError` embedding the tool name and the original text;
otherwise the result is coerced (lines 218-222). -/
def callEndpoint (emap : List (String × Endpoint)) (toolName : String)
    (kwargs : List (String × PyVal)) : Except MCPErr PyVal :=
  match dictGet emap toolName with
  | Option.none =>
    Except.error (MCPErr.mcpError ("Tool " ++ toolName ++ " not found"))
  | some ep =>
    match bindAndCall ep.func kwargs with
    | Except.error e =>
      Except.error (MCPErr.mcpError
        ("Error calling endpoint " ++ toolName ++ ": " ++ e))
    | Except.ok result => Except.ok (coerceResult result)

/-- Function `LihilMCP._call_endpoint_as_resource` (`server.py` lines 227-251):
the callable is invoked with zero arguments; same error wrapping and
result coercion. -/
def callEndpointAsResource (emap : List (String × Endpoint)) (uri : String) :
    Except MCPErr PyVal :=
  match dictGet emap uri with
  | Option.none =>
    Except.error (MCPErr.mcpError ("Resource " ++ uri ++ " not found"))
  | some ep =>
    match ep.func.run [] with
    | Except.error e =>
      Except.error (MCPErr.mcpError
        ("Error accessing resource " ++ uri ++ ": " ++ e))
    | Except.ok result => Except.ok (coerceResult result)

/-! ## Registry builder (`server.py`, registration and setup) -/

/-- Structure `MCPToolInfo` from `types.py`. -/
structure MCPToolInfo where
  name : String
  description : String
  inputSchema : Option Schema

/-- Structure `MCPResourceInfo` from `types.py`. -/
structure MCPResourceInfo where
  uri : String
  name : String
  description : String
  mimeType : String

/-- The mutable registration state of a `LihilMCP` instance:
`_tools`, `_resources`, `_endpoint_map`, `_mcp_setup_complete`. -/
structure MCPState where
  tools : List (String × MCPToolInfo)
  resources : List (String × MCPResourceInfo)
  endpointMap : List (String × Endpoint)
  setupComplete : Bool

/-- Function `_register_as_tool` (`server.py` lines 66-87): build the tool info,
store it under the callable's name, then perform the external FastMCP
registration (whose possible exception is the second component). -/
def registerAsTool (ep : Endpoint) (meta : MCPMetadata) (st : MCPState) :
    MCPState × Option String :=
  let fname := ep.func.name
  let info := MCPToolInfo.mk fname
    (pyOr meta.description (pyOr ep.func.doc ("Tool: " ++ fname)))
    (generateInputSchema ep.func)
  ({ st with
      tools := dictInsert st.tools fname info,
      endpointMap := dictInsert st.endpointMap fname ep },
    ep.fastmcpRaises)

/-- Function `_register_as_resource` (`server.py` lines 89-113). -/
def registerAsResource (ep : Endpoint) (meta : MCPMetadata) (st : MCPState) :
    MCPState × Option String :=
  let fname := ep.func.name
  let uri := pyOr meta.uriTemplate ("lihil://" ++ fname)
  let info := MCPResourceInfo.mk uri
    (pyOr meta.title fname)
    (pyOr meta.description (pyOr ep.func.doc ("Resource: " ++ fname)))
    ((dictGet meta.extra "mime_type").getD "application/json")
  ({ st with
      resources := dictInsert st.resources uri info,
      endpointMap := dictInsert st.endpointMap uri ep },
    ep.fastmcpRaises)

/-- Function `_auto_register_endpoint` (`server.py` lines 115-149): POST/PUT/PATCH
become tools under the callable's name; GET becomes a resource whose URI
slugifies the route's path; other methods register nothing. -/
def autoRegisterEndpoint (route : Route) (ep : Endpoint) (st : MCPState) :
    MCPState × Option String :=
  let fname := ep.func.name
  if ["POST", "PUT", "PATCH"].contains (pyUpper ep.method) then
    let info := MCPToolInfo.mk fname
      (pyOr ep.func.doc ("Auto-exposed tool: " ++ fname))
      (generateInputSchema ep.func)
    ({ st with
        tools := dictInsert st.tools fname info,
        endpointMap := dictInsert st.endpointMap fname ep },
      ep.fastmcpRaises)
  else if pyUpper ep.method == "GET" then
    let uri := "lihil://" ++ pyStrip (pyReplace route.path '/' '_') '_'
    let info := MCPResourceInfo.mk uri fname
      (pyOr ep.func.doc ("Auto-exposed resource: " ++ fname))
      "application/json"
    ({ st with
        resources := dictInsert st.resources uri info,
        endpointMap := dictInsert st.endpointMap uri ep },
      ep.fastmcpRaises)
  else (st, Option.none)

/-- Function `_register_endpoint` (`server.py` lines 53-64): explicit metadata is
honoured; otherwise auto-exposure (when configured) classifies by
method; otherwise nothing happens. -/
def registerEndpoint (autoExpose : Bool) (route : Route) (ep : Endpoint)
    (st : MCPState) : MCPState × Option String :=
  match ep.func.mcpMeta with
  | some meta =>
    match meta.type with
    | MCPKind.tool => registerAsTool ep meta st
    | MCPKind.resource => registerAsResource ep meta st
  | Option.none =>
    if autoExpose then autoRegisterEndpoint route ep st else (st, Option.none)

/-- The route iteration order of `_setup_mcp_endpoints`:
`for route in routes: for _, endpoint in route.endpoints.items()`. -/
def routeEndpoints : List Route → List (Route × Endpoint)
| [] => []
| r :: rest => r.endpoints.map (fun ep => (r, ep)) ++ routeEndpoints rest

/-- The registration loop of `_setup_mcp_endpoints` (lines 41-49): an
exception from registering one endpoint is re-raised as
`MCPRegistrationError` naming the offending callable, abandoning the
rest; state mutated so far is kept (Python mutates `self` in place). -/
def setupLoop (autoExpose : Bool) :
    List (Route × Endpoint) → MCPState → MCPState × Option MCPErr
| [], st => (st, Option.none)
| (r, ep) :: rest, st =>
  match registerEndpoint autoExpose r ep st with
  | (st2, some e) =>
    (st2, some (MCPErr.registrationError
      ("Failed to register endpoint " ++ ep.func.name ++ ": " ++ e)))
  | (st2, Option.none) => setupLoop autoExpose rest st2

/-- Function `_setup_mcp_endpoints` (`server.py` lines 36-51): an early return
when setup already completed; otherwise register every endpoint of every
route, and set the completion flag only when the loop finishes without
an exception. -/
def setupMcpEndpoints (autoExpose : Bool) (routes : List Route)
    (st : MCPState) : MCPState × Option MCPErr :=
  if st.setupComplete then (st, Option.none)
  else
    match setupLoop autoExpose (routeEndpoints routes) st with
    | (st2, some e) => (st2, some e)
    | (st2, Option.none) => ({ st2 with setupComplete := true }, Option.none)

/-! ## Helper lemmas -/

theorem dictGet_insert {α : Type} (d : List (String × α)) (k : String) (v : α) :
    dictGet (dictInsert d k v) k = some v := by
  induction d with
  | nil => simp [dictInsert, dictGet, List.find?]
  | cons kv rest ih =>
    unfold dictInsert
    cases h : (kv.1 == k) with
    | true => simp [dictGet, List.find?]
    | false =>
      rw [if_neg (by simp [h])]
      unfold dictGet at ih ⊢
      rw [List.find?_cons_of_neg _ (by simp [h])]
      exact ih

theorem registerAsTool_setupComplete (ep : Endpoint) (meta : MCPMetadata)
    (st : MCPState) :
    ((registerAsTool ep meta st).1).setupComplete = st.setupComplete := rfl

theorem registerAsResource_setupComplete (ep : Endpoint) (meta : MCPMetadata)
    (st : MCPState) :
    ((registerAsResource ep meta st).1).setupComplete = st.setupComplete := rfl

theorem autoRegisterEndpoint_setupComplete (route : Route) (ep : Endpoint)
    (st : MCPState) :
    ((autoRegisterEndpoint route ep st).1).setupComplete = st.setupComplete := by
  unfold autoRegisterEndpoint
  split
  · rfl
  · split
    · rfl
    · rfl

theorem registerEndpoint_setupComplete (a : Bool) (route : Route)
    (ep : Endpoint) (st : MCPState) :
    ((registerEndpoint a route ep st).1).setupComplete = st.setupComplete := by
  cases h : ep.func.mcpMeta with
  | none =>
    cases a with
    | true =>
      simp only [registerEndpoint, h]
      exact autoRegisterEndpoint_setupComplete route ep st
    | false => simp [registerEndpoint, h]
  | some meta =>
    cases hm : meta.type with
    | tool =>
      simp only [registerEndpoint, h, hm]
      exact registerAsTool_setupComplete ep meta st
    | resource =>
      simp only [registerEndpoint, h, hm]
      exact registerAsResource_setupComplete ep meta st

theorem setupLoop_cons (a : Bool) (r : Route) (ep : Endpoint)
    (rest : List (Route × Endpoint)) (st : MCPState) :
    setupLoop a ((r, ep) :: rest) st =
      match registerEndpoint a r ep st with
      | (st2, some e) =>
        (st2, some (MCPErr.registrationError
          ("Failed to register endpoint " ++ ep.func.name ++ ": " ++ e)))
      | (st2, Option.none) => setupLoop a rest st2 := rfl

theorem setupLoop_setupComplete (a : Bool) (l : List (Route × Endpoint))
    (st : MCPState) :
    ((setupLoop a l st).1).setupComplete = st.setupComplete := by
  induction l generalizing st with
  | nil => rfl
  | cons p rest ih =>
    obtain ⟨r, ep⟩ := p
    rw [setupLoop_cons]
    cases hreg : registerEndpoint a r ep st with
    | mk st2 err =>
      have hflag : st2.setupComplete = st.setupComplete := by
        have h2 := registerEndpoint_setupComplete a r ep st
        rw [hreg] at h2
        exact h2
      cases err with
      | none =>
        show ((setupLoop a rest st2).1).setupComplete = st.setupComplete
        rw [ih st2]
        exact hflag
      | some e =>
        show st2.setupComplete = st.setupComplete
        exact hflag

theorem setupLoop_append (a : Bool) (l1 l2 : List (Route × Endpoint))
    (st st1 : MCPState) (h : setupLoop a l1 st = (st1, Option.none)) :
    setupLoop a (l1 ++ l2) st = setupLoop a l2 st1 := by
  induction l1 generalizing st with
  | nil =>
    have h2 : st = st1 := congrArg Prod.fst h
    subst h2
    rw [List.nil_append]
  | cons p rest ih =>
    obtain ⟨r, ep⟩ := p
    rw [setupLoop_cons] at h
    rw [List.cons_append, setupLoop_cons]
    cases hreg : registerEndpoint a r ep st with
    | mk st2 err =>
      rw [hreg] at h
      cases err with
      | some e => simp at h
      | none =>
        show setupLoop a (rest ++ l2) st2 = setupLoop a l2 st1
        exact ih st2 h

theorem schemaLoop_cons_skip (p : Param) (ps : List Param)
    (h : p.name = "self" ∨ p.name = "cls") :
    schemaLoop (p :: ps) = schemaLoop ps := by
  rw [schemaLoop, if_pos h]

theorem schemaLoop_cons_keep (p : Param) (ps : List Param)
    (h : ¬(p.name = "self" ∨ p.name = "cls")) :
    schemaLoop (p :: ps) =
      ((p.name, typeTag p.annot) :: (schemaLoop ps).1,
        if p.default.isNone then p.name :: (schemaLoop ps).2
        else (schemaLoop ps).2) := by
  rw [schemaLoop, if_neg h]

theorem schemaLoop_required_cons_keep (p : Param) (ps : List Param)
    (h : ¬(p.name = "self" ∨ p.name = "cls")) :
    (schemaLoop (p :: ps)).2 =
      if p.default.isNone then p.name :: (schemaLoop ps).2
      else (schemaLoop ps).2 := by
  rw [schemaLoop_cons_keep p ps h]

theorem schemaLoop_props_cons_keep (p : Param) (ps : List Param)
    (h : ¬(p.name = "self" ∨ p.name = "cls")) :
    (schemaLoop (p :: ps)).1 =
      (p.name, typeTag p.annot) :: (schemaLoop ps).1 := by
  rw [schemaLoop_cons_keep p ps h]

theorem schemaLoop_required_subset (ps : List Param) :
    ∀ x ∈ (schemaLoop ps).2, x ∈ ps.map Param.name := by
  induction ps with
  | nil => intro x hx; cases hx
  | cons q t ih =>
    intro x hx
    by_cases hq : q.name = "self" ∨ q.name = "cls"
    · rw [schemaLoop_cons_skip q t hq] at hx
      exact List.mem_cons_of_mem _ (ih x hx)
    · rw [schemaLoop_required_cons_keep q t hq] at hx
      cases hd : q.default with
      | none =>
        rw [hd] at hx
        simp only [Option.isNone_none, if_true] at hx
        rcases List.mem_cons.mp hx with rfl | hx2
        · exact List.mem_cons_self _ _
        · exact List.mem_cons_of_mem _ (ih x hx2)
      | some v =>
        rw [hd] at hx
        simp only [Option.isNone_some, Bool.false_eq_true, if_false] at hx
        exact List.mem_cons_of_mem _ (ih x hx)

theorem schemaLoop_required_iff (p : Param)
    (hs : p.name ≠ "self") (hc : p.name ≠ "cls") :
    ∀ ps : List Param, (ps.map Param.name).Nodup → p ∈ ps →
      (p.name ∈ (schemaLoop ps).2 ↔ p.default = Option.none) := by
  intro ps
  induction ps with
  | nil => intro _ hp; cases hp
  | cons q t ih =>
    intro hnd hp
    rw [List.map_cons, List.nodup_cons] at hnd
    obtain ⟨hq_not, hnd_t⟩ := hnd
    rcases List.mem_cons.mp hp with rfl | hpt
    · have hskip : ¬(p.name = "self" ∨ p.name = "cls") := by
        intro hor
        rcases hor with h1 | h1
        · exact hs h1
        · exact hc h1
      rw [schemaLoop_required_cons_keep p t hskip]
      cases hd : p.default with
      | none => simp [hd]
      | some v =>
        simp only [Option.isNone_some, Bool.false_eq_true, if_false]
        constructor
        · intro hmem
          exact absurd (schemaLoop_required_subset t p.name hmem) hq_not
        · intro hfalse
          exact absurd hfalse (by simp)
    · have hpn : p.name ≠ q.name := by
        intro he
        apply hq_not
        rw [← he]
        exact List.mem_map_of_mem Param.name hpt
      by_cases hqskip : q.name = "self" ∨ q.name = "cls"
      · rw [schemaLoop_cons_skip q t hqskip]
        exact ih hnd_t hpt
      · rw [schemaLoop_required_cons_keep q t hqskip]
        cases hqd : q.default with
        | some v =>
          simp only [Option.isNone_some, Bool.false_eq_true, if_false]
          exact ih hnd_t hpt
        | none =>
          simp only [Option.isNone_none, if_true, List.mem_cons]
          constructor
          · intro hor
            rcases hor with he | hm
            · exact absurd he hpn
            · exact (ih hnd_t hpt).mp hm
          · intro hdef
            exact Or.inr ((ih hnd_t hpt).mpr hdef)

theorem schemaLoop_skip_all (ps : List Param)
    (h : ∀ p ∈ ps, p.name = "self" ∨ p.name = "cls") :
    (schemaLoop ps).1 = [] := by
  induction ps with
  | nil => rfl
  | cons q t ih =>
    rw [schemaLoop_cons_skip q t (h q (List.mem_cons_self q t))]
    exact ih (fun p hp => h p (List.mem_cons_of_mem q hp))

/-! ## Claim theorems: transport classification -/

/-- Claim C5: `_is_mcp_request` returns `True` exactly when the request
scope is HTTP and either (a) its path starts with the configured MCP
path marker, or (b) its content-type header contains the JSON media
marker and the textual form of the raw header collection contains the
JSON-RPC framing substring; a non-HTTP scope is never classified as
protocol traffic. -/
theorem isMcpRequest_characterization (pfx : String) (scope : Scope) :
    isMcpRequest pfx scope = true ↔
      (scope.type = "http" ∧
        (pyStartsWith scope.path pfx = true ∨
          (pyIn "application/json" (contentTypeOf scope) = true ∧
            pyIn "jsonrpc" (headersStr (pyDict scope.headers)) = true))) := by
  unfold isMcpRequest
  by_cases ht : scope.type = "http"
  · rw [ht]
    simp only [bne_self_eq_false, Bool.false_eq_true, if_false]
    by_cases hp : pyStartsWith scope.path pfx = true
    · simp [hp]
    · simp [hp, Bool.and_eq_true]
  · have hb : (scope.type != "http") = true := by
      simp [bne_iff_ne, ht]
    rw [if_pos hb]
    simp [ht]

/-- Claim C2 counterexample: an HTTP request whose path does not start
with the configured MCP path marker and whose content-type lacks the
JSON-RPC marker is still classified as protocol traffic by
`_is_mcp_request` when a different header carries the marker. -/
theorem contentType_lacks_jsonrpc_but_classified_mcp :
    isMcpRequest "/mcp"
      (Scope.mk "http" "/api"
        [("content-type", "application/json"), ("x-custom", "jsonrpc")])
      = true
    ∧ pyIn "jsonrpc"
        (contentTypeOf (Scope.mk "http" "/api"
          [("content-type", "application/json"), ("x-custom", "jsonrpc")]))
      = false
    ∧ pyStartsWith "/api" "/mcp" = false :=
  ⟨rfl, rfl, rfl⟩

/-- Claim C2 (amended): for every request whose path does not start with
the configured MCP path marker, if the textual form of the raw header
collection (rather than the content-type header alone) lacks the
JSON-RPC marker, then `_is_mcp_request` classifies the request as
non-protocol traffic. -/
theorem no_jsonrpc_in_headers_not_mcp (pfx : String) (scope : Scope)
    (hpath : pyStartsWith scope.path pfx = false)
    (hjr : pyIn "jsonrpc" (headersStr (pyDict scope.headers)) = false) :
    isMcpRequest pfx scope = false := by
  unfold isMcpRequest
  by_cases ht : (scope.type != "http") = true
  · rw [if_pos ht]
  · rw [if_neg ht, if_neg (by rw [hpath]; exact Bool.false_ne_true), hjr,
      Bool.and_false]

/-- Witness for the amended claim C2 at a concrete request. -/
theorem no_jsonrpc_in_headers_not_mcp_witness :
    pyStartsWith "/api" "/mcp" = false
    ∧ pyIn "jsonrpc"
        (headersStr (pyDict [("content-type", "application/json")])) = false
    ∧ isMcpRequest "/mcp"
        (Scope.mk "http" "/api" [("content-type", "application/json")])
      = false :=
  ⟨rfl, rfl,
    no_jsonrpc_in_headers_not_mcp "/mcp"
      (Scope.mk "http" "/api" [("content-type", "application/json")]) rfl rfl⟩

/-! ## Claim theorems: dispatcher -/

/-- Claim C4: for a registered tool, if binding the supplied arguments
against the callable's signature or executing the callable raises,
`_call_endpoint` raises a single uniform `MCPError` whose message
contains both the target tool's name and the original exception's
message. -/
theorem callEndpoint_wraps_errors (emap : List (String × Endpoint))
    (toolName : String) (kwargs : List (String × PyVal))
    (ep : Endpoint) (e : String)
    (hlook : dictGet emap toolName = some ep)
    (hfail : bindAndCall ep.func kwargs = Except.error e) :
    callEndpoint emap toolName kwargs
      = Except.error (MCPErr.mcpError
          ("Error calling endpoint " ++ toolName ++ ": " ++ e)) := by
  simp only [callEndpoint, hlook, hfail]

/-- Witness for claim C4 at a concrete tool whose callable raises. -/
theorem callEndpoint_wraps_errors_witness :
    dictGet [("boom_tool",
        Endpoint.mk
          (PyFunc.mk "boom_tool" Option.none (Except.ok [])
            (fun _ => Except.error "division by zero") Option.none)
          "POST" Option.none)] "boom_tool"
      = some (Endpoint.mk
          (PyFunc.mk "boom_tool" Option.none (Except.ok [])
            (fun _ => Except.error "division by zero") Option.none)
          "POST" Option.none)
    ∧ bindAndCall
        (PyFunc.mk "boom_tool" Option.none (Except.ok [])
          (fun _ => Except.error "division by zero") Option.none) []
      = Except.error "division by zero"
    ∧ callEndpoint [("boom_tool",
        Endpoint.mk
          (PyFunc.mk "boom_tool" Option.none (Except.ok [])
            (fun _ => Except.error "division by zero") Option.none)
          "POST" Option.none)] "boom_tool" []
      = Except.error (MCPErr.mcpError
          ("Error calling endpoint " ++ "boom_tool" ++ ": " ++
            "division by zero")) :=
  ⟨rfl, rfl, callEndpoint_wraps_errors _ _ _ _ _ rfl rfl⟩

/-- A concrete endpoint whose callable returns a two-element tuple. -/
def tupleEndpoint : Endpoint :=
  Endpoint.mk
    (PyFunc.mk "make_pair" Option.none (Except.ok [])
      (fun _ => Except.ok (PyVal.tuple [PyVal.int 1, PyVal.int 2]))
      Option.none)
    "POST" Option.none

/-- Claim C1 counterexample: a callable returning a tuple (not one of
the primitive shapes) is dispatched to a list, not to its textual
representation: the dispatcher's fallback is a JSON round trip, not a
plain string conversion. -/
theorem dispatch_tuple_yields_list_not_string :
    callEndpoint [("make_pair", tupleEndpoint)] "make_pair" []
      = Except.ok (PyVal.list [PyVal.int 1, PyVal.int 2])
    ∧ isJsonPrimitive (PyVal.tuple [PyVal.int 1, PyVal.int 2]) = false
    ∧ (∀ s, PyVal.list [PyVal.int 1, PyVal.int 2] ≠ PyVal.str s) := by
  refine ⟨rfl, rfl, ?_⟩
  intro s h
  exact PyVal.noConfusion h

/-- Claim C1 (amended): for every invocation through either dispatcher
entry point, a return value that is `None`, a boolean, a number, a
string, a list, or a dict is returned unchanged; every other return
value is passed through a JSON encode/decode round trip with textual
fallback, which yields the value's textual representation (a string)
when the encoder cannot serialize it, but yields the corresponding JSON
shape (e.g. a list for a tuple) when it can. -/
theorem dispatch_result_coercion (emap : List (String × Endpoint))
    (toolName : String) (kwargs : List (String × PyVal))
    (ep : Endpoint) (r : PyVal)
    (hlook : dictGet emap toolName = some ep)
    (hrun : bindAndCall ep.func kwargs = Except.ok r) :
    callEndpoint emap toolName kwargs = Except.ok (coerceResult r)
    ∧ (isJsonPrimitive r = true → coerceResult r = r)
    ∧ (∀ s, r = PyVal.obj s → coerceResult r = PyVal.str s)
    ∧ (∀ uri ep2 r2, dictGet emap uri = some ep2 →
        ep2.func.run [] = Except.ok r2 →
        callEndpointAsResource emap uri = Except.ok (coerceResult r2)) := by
  refine ⟨?_, ?_, ?_, ?_⟩
  · simp only [callEndpoint, hlook, hrun]
  · intro hprim
    unfold coerceResult
    rw [if_pos hprim]
  · intro s hs
    subst hs
    rfl
  · intro uri ep2 r2 hl2 hr2
    simp only [callEndpointAsResource, hl2, hr2]

/-- An endpoint whose callable returns a non-serializable object. -/
def objEndpoint : Endpoint :=
  Endpoint.mk
    (PyFunc.mk "get_obj" Option.none (Except.ok [])
      (fun _ => Except.ok (PyVal.obj "custom repr")) Option.none)
    "POST" Option.none

/-- Witness for the amended claim C1 at a concrete invocation. -/
theorem dispatch_result_coercion_witness :
    dictGet [("get_obj", objEndpoint)] "get_obj" = some objEndpoint
    ∧ bindAndCall objEndpoint.func [] = Except.ok (PyVal.obj "custom repr")
    ∧ callEndpoint [("get_obj", objEndpoint)] "get_obj" []
        = Except.ok (coerceResult (PyVal.obj "custom repr")) :=
  ⟨rfl, rfl,
    (dispatch_result_coercion [("get_obj", objEndpoint)] "get_obj" []
      objEndpoint (PyVal.obj "custom repr") rfl rfl).1⟩

/-! ## Claim theorems: schema inference -/

/-- Claim C3: a parameter included in the inferred schema appears in the
schema's required list exactly when it declares no default value; a
parameter carrying a default is absent from the required list regardless
of its annotated type. -/
theorem schema_required_iff_no_default (f : PyFunc)
    (params : List Param) (schema : Schema)
    (hsig : f.sig = Except.ok params)
    (hnd : (params.map Param.name).Nodup)
    (hgen : generateInputSchema f = some schema)
    (p : Param) (hp : p ∈ params)
    (hs : p.name ≠ "self") (hc : p.name ≠ "cls") :
    (p.name ∈ schema.required ↔ p.default = Option.none) := by
  have hreq : schema.required = (schemaLoop params).2 := by
    simp only [generateInputSchema, hsig] at hgen
    by_cases he : (schemaLoop params).1.isEmpty
    · rw [if_pos he] at hgen
      cases hgen
    · rw [if_neg he] at hgen
      injection hgen with h
      rw [← h]
  rw [hreq]
  exact schemaLoop_required_iff p hs hc params hnd hp

/-- Witness for claim C3 at a concrete two-parameter callable. -/
theorem schema_required_iff_no_default_witness :
    generateInputSchema
        (PyFunc.mk "add" Option.none
          (Except.ok [Param.mk "a" PyAnnot.int Option.none,
            Param.mk "b" PyAnnot.str (some (PyVal.str "x"))])
          (fun _ => Except.ok PyVal.none) Option.none)
      = some (Schema.mk [("a", "integer"), ("b", "string")] ["a"])
    ∧ ((Param.mk "a" PyAnnot.int Option.none).name ∈
          (Schema.mk [("a", "integer"), ("b", "string")] ["a"]).required
        ↔ (Param.mk "a" PyAnnot.int Option.none).default = Option.none) := by
  refine ⟨rfl, ?_⟩
  exact schema_required_iff_no_default
    (PyFunc.mk "add" Option.none
      (Except.ok [Param.mk "a" PyAnnot.int Option.none,
        Param.mk "b" PyAnnot.str (some (PyVal.str "x"))])
      (fun _ => Except.ok PyVal.none) Option.none)
    [Param.mk "a" PyAnnot.int Option.none,
      Param.mk "b" PyAnnot.str (some (PyVal.str "x"))]
    (Schema.mk [("a", "integer"), ("b", "string")] ["a"])
    rfl (by decide) rfl
    (Param.mk "a" PyAnnot.int Option.none)
    (List.mem_cons_self _ _) (by decide) (by decide)

/-- Claim C8: `_generate_input_schema` returns either a schema object or
`None`, never propagating an exception: an introspection failure
degrades to `None`, and a callable declaring no parameters other than
`self`/`cls` yields `None`. -/
theorem generateInputSchema_none_cases (f : PyFunc) :
    (∀ e, f.sig = Except.error e → generateInputSchema f = Option.none)
    ∧ (∀ params, f.sig = Except.ok params →
        (∀ p ∈ params, p.name = "self" ∨ p.name = "cls") →
        generateInputSchema f = Option.none) := by
  constructor
  · intro e he
    unfold generateInputSchema
    rw [he]
  · intro params hok hall
    simp only [generateInputSchema, hok]
    rw [schemaLoop_skip_all params hall]
    rfl

/-- Witness for claim C8: a non-introspectable callable and a
`self`-only callable both yield no schema. -/
theorem generateInputSchema_none_cases_witness :
    (PyFunc.mk "bad" Option.none (Except.error "not introspectable")
        (fun _ => Except.ok PyVal.none) Option.none).sig
      = Except.error "not introspectable"
    ∧ generateInputSchema
        (PyFunc.mk "bad" Option.none (Except.error "not introspectable")
          (fun _ => Except.ok PyVal.none) Option.none) = Option.none
    ∧ generateInputSchema
        (PyFunc.mk "bound" Option.none
          (Except.ok [Param.mk "self" PyAnnot.empty Option.none])
          (fun _ => Except.ok PyVal.none) Option.none) = Option.none := by
  refine ⟨rfl, ?_, ?_⟩
  · exact (generateInputSchema_none_cases
      (PyFunc.mk "bad" Option.none (Except.error "not introspectable")
        (fun _ => Except.ok PyVal.none) Option.none)).1
      "not introspectable" rfl
  · exact (generateInputSchema_none_cases
      (PyFunc.mk "bound" Option.none
        (Except.ok [Param.mk "self" PyAnnot.empty Option.none])
        (fun _ => Except.ok PyVal.none) Option.none)).2
      [Param.mk "self" PyAnnot.empty Option.none] rfl (by simp)

/-! ## Claim theorems: auto-registration -/

theorem registerEndpoint_auto_tool (route : Route) (ep : Endpoint)
    (st : MCPState) (hmeta : ep.func.mcpMeta = Option.none)
    (hcond : (["POST", "PUT", "PATCH"].contains (pyUpper ep.method)) = true) :
    registerEndpoint true route ep st =
      ({ st with
          tools := dictInsert st.tools ep.func.name
            (MCPToolInfo.mk ep.func.name
              (pyOr ep.func.doc ("Auto-exposed tool: " ++ ep.func.name))
              (generateInputSchema ep.func)),
          endpointMap := dictInsert st.endpointMap ep.func.name ep },
        ep.fastmcpRaises) := by
  simp only [registerEndpoint, hmeta, autoRegisterEndpoint, hcond, if_true]

theorem registerEndpoint_auto_resource (route : Route) (ep : Endpoint)
    (st : MCPState) (hmeta : ep.func.mcpMeta = Option.none)
    (hmut : (["POST", "PUT", "PATCH"].contains (pyUpper ep.method)) = false)
    (hget : (pyUpper ep.method == "GET") = true) :
    registerEndpoint true route ep st =
      ({ st with
          resources := dictInsert st.resources
            ("lihil://" ++ pyStrip (pyReplace route.path '/' '_') '_')
            (MCPResourceInfo.mk
              ("lihil://" ++ pyStrip (pyReplace route.path '/' '_') '_')
              ep.func.name
              (pyOr ep.func.doc ("Auto-exposed resource: " ++ ep.func.name))
              "application/json"),
          endpointMap := dictInsert st.endpointMap
            ("lihil://" ++ pyStrip (pyReplace route.path '/' '_') '_') ep },
        ep.fastmcpRaises) := by
  simp only [registerEndpoint, hmeta, autoRegisterEndpoint, hmut, hget,
    Bool.false_eq_true, if_false, if_true]

/-- Claim C6: under auto-exposure, an endpoint carrying no explicit MCP
metadata whose HTTP method is POST, PUT, or PATCH is registered as a
tool under the callable's name, and one whose method is GET is
registered as a resource whose URI is the fixed scheme marker
`lihil://` followed by the route's path with every `/` replaced by `_`
and leading/trailing underscores stripped. -/
theorem auto_register_by_verb (route : Route) (ep : Endpoint) (st : MCPState)
    (hmeta : ep.func.mcpMeta = Option.none) :
    ((pyUpper ep.method = "POST" ∨ pyUpper ep.method = "PUT" ∨
        pyUpper ep.method = "PATCH") →
      dictGet ((registerEndpoint true route ep st).1).tools ep.func.name
        = some (MCPToolInfo.mk ep.func.name
            (pyOr ep.func.doc ("Auto-exposed tool: " ++ ep.func.name))
            (generateInputSchema ep.func))
      ∧ dictGet ((registerEndpoint true route ep st).1).endpointMap
          ep.func.name = some ep)
    ∧ (pyUpper ep.method = "GET" →
      dictGet ((registerEndpoint true route ep st).1).resources
          ("lihil://" ++ pyStrip (pyReplace route.path '/' '_') '_')
        = some (MCPResourceInfo.mk
            ("lihil://" ++ pyStrip (pyReplace route.path '/' '_') '_')
            ep.func.name
            (pyOr ep.func.doc ("Auto-exposed resource: " ++ ep.func.name))
            "application/json")
      ∧ dictGet ((registerEndpoint true route ep st).1).endpointMap
          ("lihil://" ++ pyStrip (pyReplace route.path '/' '_') '_')
        = some ep) := by
  constructor
  · intro hm
    have hcond : (["POST", "PUT", "PATCH"].contains (pyUpper ep.method))
        = true := by
      rcases hm with h | h | h <;> rw [h] <;> decide
    rw [registerEndpoint_auto_tool route ep st hmeta hcond]
    exact ⟨dictGet_insert st.tools ep.func.name _,
      dictGet_insert st.endpointMap ep.func.name ep⟩
  · intro hm
    have hmut : (["POST", "PUT", "PATCH"].contains (pyUpper ep.method))
        = false := by
      rw [hm]; decide
    have hget : (pyUpper ep.method == "GET") = true := by
      rw [hm]; decide
    rw [registerEndpoint_auto_resource route ep st hmeta hmut hget]
    exact ⟨dictGet_insert st.resources _ _,
      dictGet_insert st.endpointMap _ ep⟩

/-- The empty registration state of a fresh `LihilMCP` instance. -/
def st0 : MCPState := MCPState.mk [] [] [] false

/-- An auto-exposed POST endpoint. -/
def createEndpoint : Endpoint :=
  Endpoint.mk
    (PyFunc.mk "create_user" Option.none (Except.ok [])
      (fun _ => Except.ok PyVal.none) Option.none)
    "POST" Option.none

/-- An auto-exposed GET endpoint. -/
def listEndpoint : Endpoint :=
  Endpoint.mk
    (PyFunc.mk "list_users" Option.none (Except.ok [])
      (fun _ => Except.ok PyVal.none) Option.none)
    "GET" Option.none

/-- Witness for claim C6: a POST endpoint lands in the tools map under
its callable's name, a GET endpoint lands in the resources map under
the slugified URI. -/
theorem auto_register_by_verb_witness :
    createEndpoint.func.mcpMeta = Option.none
    ∧ listEndpoint.func.mcpMeta = Option.none
    ∧ dictGet ((registerEndpoint true (Route.mk "/users" [createEndpoint])
          createEndpoint st0).1).tools "create_user"
      = some (MCPToolInfo.mk "create_user" "Auto-exposed tool: create_user"
          Option.none)
    ∧ dictGet ((registerEndpoint true (Route.mk "/users" [listEndpoint])
          listEndpoint st0).1).resources "lihil://users"
      = some (MCPResourceInfo.mk "lihil://users" "list_users"
          "Auto-exposed resource: list_users" "application/json") :=
  ⟨rfl, rfl,
    ((auto_register_by_verb (Route.mk "/users" [createEndpoint])
      createEndpoint st0 rfl).1 (Or.inl rfl)).1,
    ((auto_register_by_verb (Route.mk "/users" [listEndpoint])
      listEndpoint st0 rfl).2 rfl).1⟩

/-- Claim C10: under auto-exposure, an endpoint without explicit MCP
metadata whose HTTP method is none of POST, PUT, PATCH, or GET is not
registered at all: the tools map, resources map, and endpoint map are
left unchanged. -/
theorem auto_register_other_method_noop (route : Route) (ep : Endpoint)
    (st : MCPState) (hmeta : ep.func.mcpMeta = Option.none)
    (h1 : pyUpper ep.method ≠ "POST") (h2 : pyUpper ep.method ≠ "PUT")
    (h3 : pyUpper ep.method ≠ "PATCH") (h4 : pyUpper ep.method ≠ "GET") :
    registerEndpoint true route ep st = (st, Option.none) := by
  have hmut : (["POST", "PUT", "PATCH"].contains (pyUpper ep.method))
      = false := by
    simp [h1, h2, h3]
  have hget : (pyUpper ep.method == "GET") = false := by
    simp [h4]
  simp only [registerEndpoint, hmeta, autoRegisterEndpoint, hmut, hget,
    Bool.false_eq_true, if_false, if_true]

/-- An auto-exposed DELETE endpoint. -/
def deleteEndpoint : Endpoint :=
  Endpoint.mk
    (PyFunc.mk "delete_user" Option.none (Except.ok [])
      (fun _ => Except.ok PyVal.none) Option.none)
    "DELETE" Option.none

/-- Witness for claim C10 at a DELETE endpoint: the state is returned
untouched. -/
theorem auto_register_other_method_noop_witness :
    deleteEndpoint.func.mcpMeta = Option.none
    ∧ pyUpper deleteEndpoint.method = "DELETE"
    ∧ registerEndpoint true (Route.mk "/users" [deleteEndpoint])
        deleteEndpoint st0 = (st0, Option.none) :=
  ⟨rfl, rfl,
    auto_register_other_method_noop (Route.mk "/users" [deleteEndpoint])
      deleteEndpoint st0 rfl (by decide) (by decide) (by decide) (by decide)⟩

/-! ## Claim theorems: setup -/

/-- Claim C7: if registering any single endpoint raises during setup,
`_setup_mcp_endpoints` raises `MCPRegistrationError` naming the
offending endpoint's callable, registration of all later endpoints is
abandoned (the outcome is independent of them), and the setup-complete
flag remains unset. -/
theorem setup_aborts_on_failure (a : Bool) (routes : List Route)
    (pre rest : List (Route × Endpoint)) (r : Route) (ep : Endpoint)
    (st st1 st2 : MCPState) (e : String)
    (hflag : st.setupComplete = false)
    (hsplit : routeEndpoints routes = pre ++ (r, ep) :: rest)
    (hpre : setupLoop a pre st = (st1, Option.none))
    (hfail : registerEndpoint a r ep st1 = (st2, some e)) :
    setupMcpEndpoints a routes st
      = (st2, some (MCPErr.registrationError
          ("Failed to register endpoint " ++ ep.func.name ++ ": " ++ e)))
    ∧ st2.setupComplete = false := by
  have hloop : setupLoop a (routeEndpoints routes) st
      = (st2, some (MCPErr.registrationError
          ("Failed to register endpoint " ++ ep.func.name ++ ": " ++ e))) := by
    rw [hsplit, setupLoop_append a pre ((r, ep) :: rest) st st1 hpre,
      setupLoop_cons, hfail]
  constructor
  · unfold setupMcpEndpoints
    rw [if_neg (by rw [hflag]; exact Bool.false_ne_true), hloop]
  · have h1 : st1.setupComplete = st.setupComplete := by
      have h2 := setupLoop_setupComplete a pre st
      rw [hpre] at h2
      exact h2
    have h3 : st2.setupComplete = st1.setupComplete := by
      have h4 := registerEndpoint_setupComplete a r ep st1
      rw [hfail] at h4
      exact h4
    rw [h3, h1, hflag]

/-- An endpoint tagged as a tool whose external FastMCP registration
call raises. -/
def failingEndpoint : Endpoint :=
  Endpoint.mk
    (PyFunc.mk "broken" Option.none (Except.ok [])
      (fun _ => Except.ok PyVal.none)
      (some (MCPMetadata.mk MCPKind.tool Option.none Option.none
        Option.none [])))
    "POST" (some "fastmcp rejected the tool")

/-- The state after the failing registration mutated the maps. -/
def failState : MCPState :=
  MCPState.mk
    [("broken", MCPToolInfo.mk "broken" "Tool: broken" Option.none)] []
    [("broken", failingEndpoint)] false

/-- Witness for claim C7: a one-endpoint application whose registration
fails surfaces `MCPRegistrationError` naming the callable and leaves
the completion flag unset. -/
theorem setup_aborts_on_failure_witness :
    st0.setupComplete = false
    ∧ routeEndpoints [Route.mk "/broken" [failingEndpoint]]
      = [] ++ (Route.mk "/broken" [failingEndpoint], failingEndpoint) :: []
    ∧ setupLoop true [] st0 = (st0, Option.none)
    ∧ registerEndpoint true (Route.mk "/broken" [failingEndpoint])
        failingEndpoint st0 = (failState, some "fastmcp rejected the tool")
    ∧ (setupMcpEndpoints true [Route.mk "/broken" [failingEndpoint]] st0
        = (failState, some (MCPErr.registrationError
            ("Failed to register endpoint " ++ "broken" ++ ": " ++
              "fastmcp rejected the tool")))
      ∧ failState.setupComplete = false) :=
  ⟨rfl, rfl, rfl, rfl,
    setup_aborts_on_failure true [Route.mk "/broken" [failingEndpoint]]
      [] [] (Route.mk "/broken" [failingEndpoint]) failingEndpoint
      st0 st0 failState "fastmcp rejected the tool" rfl rfl rfl rfl⟩

/-- Claim C9: calling `_setup_mcp_endpoints` again after it has once
completed successfully is a no-op: the tools map, resources map, and
endpoint map are returned unchanged and no endpoint is registered a
second time, regardless of the arguments of the second call. -/
theorem setup_idempotent_after_success (a : Bool) (routes : List Route)
    (st st2 : MCPState)
    (h : setupMcpEndpoints a routes st = (st2, Option.none))
    (a2 : Bool) (routes2 : List Route) :
    setupMcpEndpoints a2 routes2 st2 = (st2, Option.none) := by
  have hflag : st2.setupComplete = true := by
    unfold setupMcpEndpoints at h
    by_cases hst : st.setupComplete = true
    · rw [if_pos hst] at h
      have hst2 : st = st2 := congrArg Prod.fst h
      rw [← hst2]
      exact hst
    · rw [if_neg hst] at h
      cases hloop : setupLoop a (routeEndpoints routes) st with
      | mk st3 err =>
        rw [hloop] at h
        cases err with
        | some e => simp at h
        | none =>
          have hst2 : ({ st3 with setupComplete := true } : MCPState) = st2 :=
            congrArg Prod.fst h
          rw [← hst2]
  unfold setupMcpEndpoints
  rw [if_pos hflag]

/-- Witness for claim C9: running setup twice from the empty state. -/
theorem setup_idempotent_after_success_witness :
    setupMcpEndpoints true [] (MCPState.mk [] [] [] false)
      = (MCPState.mk [] [] [] true, Option.none)
    ∧ setupMcpEndpoints true [] (MCPState.mk [] [] [] true)
      = (MCPState.mk [] [] [] true, Option.none) :=
  ⟨rfl, setup_idempotent_after_success true [] (MCPState.mk [] [] [] false)
    (MCPState.mk [] [] [] true) rfl true []⟩
